import Mathlib

/-!
Verification development for the `python-multiproc` weather-service repository
(`shared.py`, `server.py`, `client.py`).

The Python code is shallowly embedded:

* JSON payloads (the parsed result of `response.json()` / `json.load`) are the
  inductive type `Json`; a JSON `null` doubles as the Python value `None`,
  exactly as `json.loads` produces it.
* Python dictionary subscription `d[k]` (raising `KeyError`), `d.get(k)`
  (returning `None` on a missing key), and list subscription `xs[0]`
  (raising `IndexError`) become `Json.pyItem`, `Json.pyGet` and
  `Json.pyIndexNat`.
* Fallible Python code returns `Except PyError _`; `PyError` covers the
  exception kinds the embedded fragments can raise.
* An HTTP response is its status code and its parsed JSON body; the shared
  `requests.Session` is a fixed map from request URL to response, which models
  one invocation against a fixed upstream (the network is an external
  collaborator).
* Latitude/longitude are exact rationals: the code never computes with the
  coordinates, it only carries them and renders them into a URL, so `Rat`
  stands in for Python `float` without loss for the properties proved here.
-/

/-- Parsed JSON payload; `null` also plays the role of the Python value
`None`, matching what `json.loads` produces for a JSON `null`.  An `obj` is a
Python dict as a key/value list (Python dicts cannot hold duplicate keys;
lookup takes the first binding). -/
inductive Json where
  | null : Json
  | bool : Bool → Json
  | num : Int → Json
  | str : String → Json
  | arr : List Json → Json
  | obj : List (String × Json) → Json

/-- Exception kinds raisable by the embedded Python fragments:
`KeyError` (missing dict key), `IndexError` (list index out of range),
`TypeError` (operation on a value of the wrong type), and the
`requests.HTTPError` raised by `raise_for_status`. -/
inductive PyError where
  | keyError : String → PyError
  | indexError : PyError
  | typeError : PyError
  | httpError : Nat → PyError
deriving DecidableEq, Repr

namespace Json

/-- Python `d[k]` on a parsed-JSON value: a missing key raises `KeyError`;
subscripting a non-dict with a string key raises `TypeError`. -/
def pyItem : Json → String → Except PyError Json
  | .obj kvs, k =>
    match kvs.lookup k with
    | some v => .ok v
    | none => .error (.keyError k)
  | _, _ => .error .typeError

/-- Python `d.get(k)`: `None` (our `Json.null`) when the key is missing.
In the embedded code `.get` is only reached on values already known to be
dicts (an earlier `d[k]` succeeded), so the non-dict case is unreachable. -/
def pyGet : Json → String → Json
  | .obj kvs, k => (kvs.lookup k).getD .null
  | _, _ => .null

/-- Python `xs[i]` with a non-negative integer index: `IndexError` past the
end of a list; on a dict the integer key is absent (JSON object keys are
strings), so `KeyError` (the model renders the offending key in decimal);
`TypeError` on any other value. -/
def pyIndexNat : Json → Nat → Except PyError Json
  | .arr xs, i =>
    match xs.get? i with
    | some v => .ok v
    | none => .error .indexError
  | .obj _, i => .error (.keyError (toString i))
  | _, _ => .error .typeError

/-- Python truthiness of a parsed-JSON value: `None`, `False`, `0`, `""`,
`[]` and an empty dict are falsy, everything else is truthy. -/
def truthy : Json → Bool
  | .null => false
  | .bool b => b
  | .num n => n != 0
  | .str s => s != ""
  | .arr xs => !xs.isEmpty
  | .obj kvs => !kvs.isEmpty

end Json

/-- Python `sep.join(parts)` (all parts already strings). -/
def pyJoin (sep : String) : List String → String
  | [] => ""
  | [x] => x
  | x :: y :: xs => x ++ sep ++ pyJoin sep (y :: xs)

/-- The single-quote character, used by Python `repr` of strings. -/
def pyQuote : String := (Char.ofNat 39).toString

mutual

/-- Python `repr` of a parsed-JSON value (string-escaping inside `repr` of a
string is simplified to plain quoting; no embedded fragment proves anything
about reprs of strings containing quotes). -/
def Json.pyRepr : Json → String
  | .null => "None"
  | .bool true => "True"
  | .bool false => "False"
  | .num n => toString n
  | .str s => pyQuote ++ s ++ pyQuote
  | .arr xs => "[" ++ pyJoin ", " (Json.pyReprList xs) ++ "]"
  | .obj kvs => "\x7b" ++ pyJoin ", " (Json.pyReprPairs kvs) ++ "\x7d"

/-- `repr` of each element of a JSON array. -/
def Json.pyReprList : List Json → List String
  | [] => []
  | x :: xs => Json.pyRepr x :: Json.pyReprList xs

/-- `repr` of each `key: value` entry of a JSON object. -/
def Json.pyReprPairs : List (String × Json) → List String
  | [] => []
  | (k, v) :: kvs => (pyQuote ++ k ++ pyQuote ++ ": " ++ Json.pyRepr v) :: Json.pyReprPairs kvs

end

/-- Python `str` of a parsed-JSON value, as used by f-string interpolation:
identity on strings, `True`/`False`/`None` spellings, decimal integers, and
`repr` for the container types. -/
def Json.pyStr : Json → String
  | .null => "None"
  | .bool true => "True"
  | .bool false => "False"
  | .num n => toString n
  | .str s => s
  | v => v.pyRepr

/-- Exact decimal-free rendering of a rational coordinate; stands in for
Python float formatting inside f-strings.  It is injective, which is all the
URL construction needs from it. -/
def ratStr (q : Rat) : String := toString q.num ++ "/" ++ toString q.den

/-- An upstream HTTP response: status code plus parsed JSON body (responses
are modelled after `response.json()` has succeeded; a malformed body is
outside the universe quantified over here). -/
structure HttpResponse where
  status_code : Nat
  body : Json

/-- `requests.Response.raise_for_status`: raises `HTTPError` exactly for
status codes 400–599. -/
def raise_for_status (response : HttpResponse) : Except PyError Unit :=
  if 400 ≤ response.status_code ∧ response.status_code < 600 then
    .error (.httpError response.status_code)
  else
    .ok ()

/-- `shared.Location`: geographic coordinates, an immutable value. -/
structure Location where
  latitude : Rat
  longitude : Rat
deriving DecidableEq, Repr

/-- `shared.WeatherForecast`: the forecast record sent back to clients.
Field values other than `request` hold whatever Python value the upstream
period dict held (Python dataclasses do not enforce their annotations), so
they are `Json`; `temperature_trend` is `Json.null` when the upstream key was
absent, exactly as `dict.get` produces. -/
structure WeatherForecast where
  request : Location
  number : Json
  name : Json
  start_time : Json
  end_time : Json
  is_daytime : Json
  temperature : Json
  temperature_unit : Json
  temperature_trend : Json
  wind_speed : Json
  wind_direction : Json
  icon : Json
  short_forecast : Json
  detailed_forecast : Json

/-- `server.WeatherService`: its only instance state is the persistent
`requests.Session`, modelled as a fixed map from request URL to response. -/
structure WeatherService where
  session : String → HttpResponse

/-- `server.WeatherService.BASE_URL`. -/
def BASE_URL : String := "https://api.weather.gov"

/-- The `points` endpoint URL built by `_get_grid_info`:
`f"{BASE_URL}/points/{latitude},{longitude}"`. -/
def points_url (latitude longitude : Rat) : String :=
  BASE_URL ++ "/points/" ++ ratStr latitude ++ "," ++ ratStr longitude

/-- The `gridpoints` forecast endpoint URL built by `_get_forecast`:
`f"{BASE_URL}/gridpoints/{office}/{grid_x},{grid_y}/forecast"`.  The three
path pieces are rendered with Python `str`, as an f-string does. -/
def gridpoints_url (office grid_x grid_y : Json) : String :=
  BASE_URL ++ "/gridpoints/" ++ office.pyStr ++ "/" ++ grid_x.pyStr ++ ","
    ++ grid_y.pyStr ++ "/forecast"

/-- `server.WeatherService._get_grid_info`: fetch the points endpoint, check
the status, and extract `gridId`, `gridX`, `gridY` from the nested
`properties` object, in source order. -/
def _get_grid_info (ws : WeatherService) (latitude longitude : Rat) :
    Except PyError (Json × Json × Json) := do
  let response := ws.session (points_url latitude longitude)
  raise_for_status response
  let data := response.body
  let properties ← data.pyItem "properties"
  let office_id ← properties.pyItem "gridId"
  let grid_x ← properties.pyItem "gridX"
  let grid_y ← properties.pyItem "gridY"
  return (office_id, grid_x, grid_y)

/-- `server.WeatherService._get_forecast`: fetch the gridpoints forecast
endpoint, check the status, extract `properties.periods`, and return its
first element. -/
def _get_forecast (ws : WeatherService) (office grid_x grid_y : Json) :
    Except PyError Json := do
  let response := ws.session (gridpoints_url office grid_x grid_y)
  raise_for_status response
  let data := response.body
  let properties ← data.pyItem "properties"
  let periods ← properties.pyItem "periods"
  let first_period ← periods.pyIndexNat 0
  return first_period

/-- `server.WeatherService.get_weather`: the two-step lookup followed by the
field-by-field construction of the `WeatherForecast` dataclass, with the
keyword arguments extracted in source order; `temperature_trend` uses
`dict.get` and therefore cannot fail. -/
def get_weather (ws : WeatherService) (location : Location) :
    Except PyError WeatherForecast := do
  let (office, grid_x, grid_y) ←
    _get_grid_info ws location.latitude location.longitude
  let period ← _get_forecast ws office grid_x grid_y
  let number ← period.pyItem "number"
  let name ← period.pyItem "name"
  let start_time ← period.pyItem "startTime"
  let end_time ← period.pyItem "endTime"
  let is_daytime ← period.pyItem "isDaytime"
  let temperature ← period.pyItem "temperature"
  let temperature_unit ← period.pyItem "temperatureUnit"
  let temperature_trend := period.pyGet "temperatureTrend"
  let wind_speed ← period.pyItem "windSpeed"
  let wind_direction ← period.pyItem "windDirection"
  let icon ← period.pyItem "icon"
  let short_forecast ← period.pyItem "shortForecast"
  let detailed_forecast ← period.pyItem "detailedForecast"
  return { request := location, number := number, name := name,
           start_time := start_time, end_time := end_time,
           is_daytime := is_daytime, temperature := temperature,
           temperature_unit := temperature_unit,
           temperature_trend := temperature_trend, wind_speed := wind_speed,
           wind_direction := wind_direction, icon := icon,
           short_forecast := short_forecast,
           detailed_forecast := detailed_forecast }

/-- The URLs `get_weather` requests through the session, in order: the points
URL is always fetched; the gridpoints URL is fetched exactly when the first
call's status check and extraction succeeded (the second `session.get`
happens unconditionally once `_get_grid_info` has returned). -/
def get_weather_trace (ws : WeatherService) (location : Location) :
    List String :=
  match _get_grid_info ws location.latitude location.longitude with
  | .error _ => [points_url location.latitude location.longitude]
  | .ok (office, grid_x, grid_y) =>
      [points_url location.latitude location.longitude,
       gridpoints_url office grid_x grid_y]

/-- The state of the `lines` local of `shared.WeatherForecast.to_human_readable`
just before `"\n".join(lines)`: four header lines, the Temperature Trend line
exactly when `self.temperature_trend` is truthy, then conditions, wind, a
blank line, and the raw detailed forecast (passed in as a string: see
`to_human_readable` for the non-string case). -/
def human_lines (wf : WeatherForecast) (detailed : String) : List String :=
  (["Weather Forecast for Location (" ++ ratStr wf.request.latitude ++ ", "
      ++ ratStr wf.request.longitude ++ ")",
    String.mk (List.replicate 70 '='),
    "Period: " ++ wf.name.pyStr,
    "Temperature: " ++ wf.temperature.pyStr ++ "°" ++ wf.temperature_unit.pyStr]
   ++ (if wf.temperature_trend.truthy then
        ["Temperature Trend: " ++ wf.temperature_trend.pyStr]
      else []))
  ++ ["Conditions: " ++ wf.short_forecast.pyStr,
      "Wind: " ++ wf.wind_direction.pyStr ++ " at " ++ wf.wind_speed.pyStr,
      "",
      detailed]

/-- `shared.WeatherForecast.to_human_readable`: join the lines with newlines.
Every line except the raw `self.detailed_forecast` comes out of an f-string
and is a string; `str.join` raises `TypeError` on a non-string element, which
only `detailed_forecast` can be. -/
def to_human_readable (wf : WeatherForecast) : Except PyError String :=
  match wf.detailed_forecast with
  | Json.str detailed => Except.ok (pyJoin "\n" (human_lines wf detailed))
  | _ => Except.error PyError.typeError

/-- Spec-side pipeline for the refinement claim about `get_weather`, written
from the spec's algorithm steps: (1) call the points lookup with the
location's latitude/longitude and extract `(office_id, grid_x, grid_y)` from
the nested `properties` object; (2) call the gridpoints forecast lookup with
exactly that triple and select element 0 of `properties.periods`; (3) map the
selected period's fields 1:1, attaching the original location as `request`,
with an absent `temperatureTrend` becoming "no value". -/
def get_weather_pipeline (ws : WeatherService) (location : Location) :
    Except PyError WeatherForecast := do
  let points_response := ws.session (points_url location.latitude location.longitude)
  raise_for_status points_response
  let properties ← points_response.body.pyItem "properties"
  let office_id ← properties.pyItem "gridId"
  let grid_x ← properties.pyItem "gridX"
  let grid_y ← properties.pyItem "gridY"
  let forecast_response := ws.session (gridpoints_url office_id grid_x grid_y)
  raise_for_status forecast_response
  let fprops ← forecast_response.body.pyItem "properties"
  let periods ← fprops.pyItem "periods"
  let period ← periods.pyIndexNat 0
  let number ← period.pyItem "number"
  let name ← period.pyItem "name"
  let start_time ← period.pyItem "startTime"
  let end_time ← period.pyItem "endTime"
  let is_daytime ← period.pyItem "isDaytime"
  let temperature ← period.pyItem "temperature"
  let temperature_unit ← period.pyItem "temperatureUnit"
  let temperature_trend := period.pyGet "temperatureTrend"
  let wind_speed ← period.pyItem "windSpeed"
  let wind_direction ← period.pyItem "windDirection"
  let icon ← period.pyItem "icon"
  let short_forecast ← period.pyItem "shortForecast"
  let detailed_forecast ← period.pyItem "detailedForecast"
  return { request := location, number := number, name := name,
           start_time := start_time, end_time := end_time,
           is_daytime := is_daytime, temperature := temperature,
           temperature_unit := temperature_unit,
           temperature_trend := temperature_trend, wind_speed := wind_speed,
           wind_direction := wind_direction, icon := icon,
           short_forecast := short_forecast,
           detailed_forecast := detailed_forecast }

/-- The standard base64 alphabet used by `base64.b64encode`/`b64decode`. -/
def b64alphabet : List Char :=
  "ABCDEFGHIJKLMNOPQRSTUVWXYZabcdefghijklmnopqrstuvwxyz0123456789+/".data

/-- The base64 digit for a 6-bit value. -/
def b64char (n : Nat) : Char := b64alphabet.getD n 'A'

/-- The 6-bit value of a base64 digit (the position in the alphabet). -/
def b64val (c : Char) : Nat := b64alphabet.indexOf c

/-- `base64.b64encode` on a byte list: three bytes become four digits; a
two-byte tail becomes three digits and one `=` pad; a one-byte tail becomes
two digits and two `=` pads. -/
def b64encodeChunks : List Nat → List Char
  | b0 :: b1 :: b2 :: rest =>
      b64char (b0 / 4) :: b64char (b0 % 4 * 16 + b1 / 16) ::
      b64char (b1 % 16 * 4 + b2 / 64) :: b64char (b2 % 64) :: b64encodeChunks rest
  | [b0, b1] =>
      [b64char (b0 / 4), b64char (b0 % 4 * 16 + b1 / 16), b64char (b1 % 16 * 4), '=']
  | [b0] =>
      [b64char (b0 / 4), b64char (b0 % 4 * 16), '=', '=']
  | [] => []

/-- `base64.b64decode` on the character list of its input: four digits at a
time; `=` in the third position ends a one-byte group, `=` in the fourth a
two-byte group.  Inputs that are not a padded four-digit grouping are
rejected by Python; only the shapes `b64encodeChunks` produces matter here,
and on those the two functions are proved inverse. -/
def b64decodeChunks : List Char → List Nat
  | c1 :: c2 :: c3 :: c4 :: rest =>
      if c3 = '=' then
        [b64val c1 * 4 + b64val c2 / 16]
      else if c4 = '=' then
        [b64val c1 * 4 + b64val c2 / 16, b64val c2 % 16 * 16 + b64val c3 / 4]
      else
        (b64val c1 * 4 + b64val c2 / 16) ::
        (b64val c2 % 16 * 16 + b64val c3 / 4) ::
        (b64val c3 % 4 * 64 + b64val c4) :: b64decodeChunks rest
  | _ => []

/-- `server.write_connection_info`: the JSON document the server dumps into
`.manager_connection` — the socket path, and the authkey bytes base64-encoded
and decoded to text.  File I/O and JSON text serialization are external
collaborators; the model keeps the written document in parsed form. -/
def write_connection_info (socket_path : String) (authkey : List Nat) : Json :=
  Json.obj [
    ("socket_path", Json.str socket_path),
    ("authkey", Json.str (String.mk (b64encodeChunks authkey)))]

/-- `client.load_connection_info`: read `socket_path` and `authkey` out of
the connection document (subscription raises `KeyError` on a missing key) and
base64-decode the authkey; `b64decode` raises `TypeError` when handed a
non-string. -/
def load_connection_info (connection_data : Json) :
    Except PyError (Json × List Nat) := do
  let socket_path ← connection_data.pyItem "socket_path"
  let authkey_b64 ← connection_data.pyItem "authkey"
  match authkey_b64 with
  | Json.str s => return (socket_path, b64decodeChunks s.data)
  | _ => Except.error PyError.typeError

/-- The registration `server.main` performs:
`WeatherManager.register('get_weather_service', callable=lambda: weather_service)`
— the operation name paired with a factory closing over the one
`WeatherService` instance created before registration. -/
def main_registration (weather_service : WeatherService) :
    String × (Unit → WeatherService) :=
  ("get_weather_service", fun _ => weather_service)

/-- Whether `pat` is a leading segment of `l` (character lists). -/
def startsWithChars : List Char → List Char → Bool
  | [], _ => true
  | _ :: _, [] => false
  | p :: ps, c :: cs => p == c && startsWithChars ps cs

/-- Whether `pat` occurs contiguously anywhere in `l` (character lists). -/
def containsChars (pat : List Char) : List Char → Bool
  | [] => startsWithChars pat []
  | c :: cs => startsWithChars pat (c :: cs) || containsChars pat cs

/-- Whether the string `pat` occurs contiguously in the string `s`. -/
def containsText (s pat : String) : Bool := containsChars pat.data s.data

/-! Concrete upstream data used to evaluate the theorems on closed inputs:
a well-formed Weather.gov-shaped pair of payloads, plus variants with a
missing `temperatureTrend`, a missing required key, and an empty period
list. -/

/-- A fully-populated upstream forecast period. -/
def samplePeriod : Json := Json.obj [
  ("number", Json.num 1),
  ("name", Json.str "Tonight"),
  ("startTime", Json.str "2026-10-11T18:00:00-07:00"),
  ("endTime", Json.str "2026-10-12T06:00:00-07:00"),
  ("isDaytime", Json.bool false),
  ("temperature", Json.num 42),
  ("temperatureUnit", Json.str "F"),
  ("temperatureTrend", Json.str "falling"),
  ("windSpeed", Json.str "5 to 10 mph"),
  ("windDirection", Json.str "S"),
  ("icon", Json.str "https://api.weather.gov/icons/land/night/rain"),
  ("shortForecast", Json.str "Rain"),
  ("detailedForecast", Json.str "Rain likely after midnight.")]

/-- A well-formed points-endpoint payload. -/
def samplePointsBody : Json := Json.obj [
  ("properties", Json.obj [
    ("gridId", Json.str "SEW"),
    ("gridX", Json.num 124),
    ("gridY", Json.num 67)])]

/-- A forecast-endpoint payload around a given period list. -/
def forecastBodyOf (periods : List Json) : Json :=
  Json.obj [("properties", Json.obj [("periods", Json.arr periods)])]

/-- A sample request location. -/
def sampleLoc : Location := { latitude := 47, longitude := -122 }

/-- A service whose session answers the points URL for `sampleLoc` with
`samplePointsBody` and every other URL with the given forecast payload. -/
def serviceWith (forecastBody : Json) : WeatherService :=
  { session := fun u =>
      if u = points_url sampleLoc.latitude sampleLoc.longitude then
        { status_code := 200, body := samplePointsBody }
      else
        { status_code := 200, body := forecastBody } }

/-- The fully successful sample service. -/
def sampleWS : WeatherService := serviceWith (forecastBodyOf [samplePeriod])

/-- The forecast `get_weather` produces from the sample service. -/
def sampleForecast : WeatherForecast :=
  { request := sampleLoc, number := Json.num 1, name := Json.str "Tonight",
    start_time := Json.str "2026-10-11T18:00:00-07:00",
    end_time := Json.str "2026-10-12T06:00:00-07:00",
    is_daytime := Json.bool false, temperature := Json.num 42,
    temperature_unit := Json.str "F",
    temperature_trend := Json.str "falling",
    wind_speed := Json.str "5 to 10 mph", wind_direction := Json.str "S",
    icon := Json.str "https://api.weather.gov/icons/land/night/rain",
    short_forecast := Json.str "Rain",
    detailed_forecast := Json.str "Rain likely after midnight." }

/-- The entries of `samplePeriod` without the `temperatureTrend` key. -/
def trendlessPairs : List (String × Json) := [
  ("number", Json.num 1),
  ("name", Json.str "Tonight"),
  ("startTime", Json.str "2026-10-11T18:00:00-07:00"),
  ("endTime", Json.str "2026-10-12T06:00:00-07:00"),
  ("isDaytime", Json.bool false),
  ("temperature", Json.num 42),
  ("temperatureUnit", Json.str "F"),
  ("windSpeed", Json.str "5 to 10 mph"),
  ("windDirection", Json.str "S"),
  ("icon", Json.str "https://api.weather.gov/icons/land/night/rain"),
  ("shortForecast", Json.str "Rain"),
  ("detailedForecast", Json.str "Rain likely after midnight.")]

/-- `samplePeriod` with the `temperatureTrend` key absent. -/
def trendlessPeriod : Json := Json.obj trendlessPairs

/-- The entries of `samplePeriod` without the required `number` key. -/
def numberlessPairs : List (String × Json) := [
  ("name", Json.str "Tonight"),
  ("startTime", Json.str "2026-10-11T18:00:00-07:00"),
  ("endTime", Json.str "2026-10-12T06:00:00-07:00"),
  ("isDaytime", Json.bool false),
  ("temperature", Json.num 42),
  ("temperatureUnit", Json.str "F"),
  ("temperatureTrend", Json.str "falling"),
  ("windSpeed", Json.str "5 to 10 mph"),
  ("windDirection", Json.str "S"),
  ("icon", Json.str "https://api.weather.gov/icons/land/night/rain"),
  ("shortForecast", Json.str "Rain"),
  ("detailedForecast", Json.str "Rain likely after midnight.")]

/-- `samplePeriod` with the required `number` key absent. -/
def numberlessPeriod : Json := Json.obj numberlessPairs

/-- A service with the trendless period payload. -/
def trendlessWS : WeatherService := serviceWith (forecastBodyOf [trendlessPeriod])

/-- A service with the numberless period payload. -/
def noNumberWS : WeatherService := serviceWith (forecastBodyOf [numberlessPeriod])

/-- A service whose forecast payload has an empty period list. -/
def emptyPeriodsWS : WeatherService := serviceWith (forecastBodyOf [])

/-- A service whose points payload is a dict with no `properties` key. -/
def noPropsWS : WeatherService :=
  { session := fun _ => { status_code := 200, body := Json.obj [] } }

/-- A forecast rendered to text in the counterexample: its upstream
`temperatureTrend` was the empty string — a present value, and distinct from
the absent-key marker `Json.null`. -/
def cexForecast : WeatherForecast :=
  { request := { latitude := 0, longitude := 0 },
    number := Json.num 2, name := Json.str "Monday",
    start_time := Json.str "2026-10-12T06:00:00-07:00",
    end_time := Json.str "2026-10-12T18:00:00-07:00",
    is_daytime := Json.bool true, temperature := Json.num 60,
    temperature_unit := Json.str "F",
    temperature_trend := Json.str "",
    wind_speed := Json.str "5 mph", wind_direction := Json.str "N",
    icon := Json.str "https://api.weather.gov/icons/land/day/few",
    short_forecast := Json.str "Sunny",
    detailed_forecast := Json.str "Sunny and calm." }

/-- A forecast with a truthy trend, used to evaluate the rendering theorem. -/
def trendyForecast : WeatherForecast :=
  { cexForecast with temperature_trend := Json.str "rising" }

/-- The text `to_human_readable` renders for `trendyForecast`. -/
def trendyText : String := pyJoin "\n" (human_lines trendyForecast "Sunny and calm.")

/-! Helper lemmas shared by the claim theorems. -/

/-- Binding a success feeds the value to the continuation. -/
theorem ex_ok_bind {α β : Type} (a : α) (f : α → Except PyError β) :
    (Except.ok a >>= f) = f a := rfl

/-- Binding an error short-circuits. -/
theorem ex_error_bind {α β : Type} (e : PyError) (f : α → Except PyError β) :
    ((Except.error e : Except PyError α) >>= f) = Except.error e := rfl

/-- A bound computation succeeds exactly when both stages do. -/
theorem ex_bind_eq_ok {α β : Type} {x : Except PyError α}
    {f : α → Except PyError β} {b : β} :
    (x >>= f) = Except.ok b ↔ ∃ a, x = Except.ok a ∧ f a = Except.ok b := by
  cases x with
  | error e =>
    rw [ex_error_bind]
    constructor
    · intro h
      exact absurd h (by simp)
    · rintro ⟨a, ha, -⟩
      exact absurd ha (by simp)
  | ok a =>
    rw [ex_ok_bind]
    constructor
    · intro h
      exact ⟨a, rfl, h⟩
    · rintro ⟨a', ha, hf⟩
      cases ha
      exact hf

/-- `pure` into `Except` is `Except.ok`. -/
theorem ex_pure_eq_ok {α : Type} {a b : α} :
    (pure a : Except PyError α) = Except.ok b ↔ a = b := by
  constructor
  · intro h
    exact Except.ok.inj h
  · intro h
    rw [h]
    rfl

/-- Subscripting a dict that has the key yields its value. -/
theorem pyItem_found {kvs : List (String × Json)} {k : String} {v : Json}
    (h : kvs.lookup k = some v) :
    (Json.obj kvs).pyItem k = Except.ok v := by
  simp [Json.pyItem, h]

/-- Subscripting a dict that lacks the key raises `KeyError`. -/
theorem pyItem_missing {kvs : List (String × Json)} {k : String}
    (h : kvs.lookup k = none) :
    (Json.obj kvs).pyItem k = Except.error (.keyError k) := by
  simp [Json.pyItem, h]

/-- `dict.get` on a missing key yields `None`. -/
theorem pyGet_missing {kvs : List (String × Json)} {k : String}
    (h : kvs.lookup k = none) : (Json.obj kvs).pyGet k = Json.null := by
  simp [Json.pyGet, h]

/-- The composed `get_weather` equals the flat spec-side pipeline: the points
call, the triple extraction, the gridpoints call with exactly that triple,
the selection of period 0, and the 1:1 field mapping. -/
theorem get_weather_eq_pipeline (ws : WeatherService) (loc : Location) :
    get_weather ws loc = get_weather_pipeline ws loc := by
  simp only [get_weather, get_weather_pipeline, _get_grid_info, _get_forecast,
    bind_assoc, pure_bind]

/-- Decoding a base64 digit recovers the 6-bit value it encodes. -/
theorem b64val_b64char : ∀ n < 64, b64val (b64char n) = n := by decide

/-- A base64 digit is never the padding character. -/
theorem b64char_ne_pad : ∀ n < 64, b64char n ≠ '=' := by decide

/-- `b64decodeChunks` is a left inverse of `b64encodeChunks` on byte lists. -/
theorem b64_roundtrip :
    ∀ bs : List Nat, (∀ b ∈ bs, b < 256) →
      b64decodeChunks (b64encodeChunks bs) = bs := by
  intro bs h
  induction bs using b64encodeChunks.induct with
  | case1 b0 b1 b2 rest ih =>
    have hb0 : b0 < 256 := h b0 (by simp)
    have hb1 : b1 < 256 := h b1 (by simp)
    have hb2 : b2 < 256 := h b2 (by simp)
    have h3 : b1 % 16 * 4 + b2 / 64 < 64 := by omega
    have h4 : b2 % 64 < 64 := by omega
    rw [b64encodeChunks, b64decodeChunks,
      if_neg (b64char_ne_pad _ h3), if_neg (b64char_ne_pad _ h4),
      b64val_b64char _ (by omega : b0 / 4 < 64),
      b64val_b64char _ (by omega : b0 % 4 * 16 + b1 / 16 < 64),
      b64val_b64char _ h3, b64val_b64char _ h4,
      ih (fun b hb => h b (by simp [hb]))]
    congr 1 <;> [skip; congr 1 <;> [skip; congr 1]] <;> omega
  | case2 b0 b1 =>
    have hb0 : b0 < 256 := h b0 (by simp)
    have hb1 : b1 < 256 := h b1 (by simp)
    have h3 : b1 % 16 * 4 < 64 := by omega
    rw [b64encodeChunks, b64decodeChunks, if_neg (b64char_ne_pad _ h3),
      if_pos rfl,
      b64val_b64char _ (by omega : b0 / 4 < 64),
      b64val_b64char _ (by omega : b0 % 4 * 16 + b1 / 16 < 64),
      b64val_b64char _ h3]
    congr 1 <;> [skip; congr 1] <;> omega
  | case3 b0 =>
    have hb0 : b0 < 256 := h b0 (by simp)
    rw [b64encodeChunks, b64decodeChunks, if_pos rfl,
      b64val_b64char _ (by omega : b0 / 4 < 64),
      b64val_b64char _ (by omega : b0 % 4 * 16 < 64)]
    congr 1
    omega
  | case4 => rfl

/-- A list starts with itself followed by anything. -/
theorem startsWithChars_append (p t : List Char) :
    startsWithChars p (p ++ t) = true := by
  induction p with
  | nil => rfl
  | cons c cs ih => simp [startsWithChars, ih]

/-- A found leading match means the pattern is found. -/
theorem containsChars_of_startsWith {pat l : List Char}
    (h : startsWithChars pat l = true) : containsChars pat l = true := by
  cases l with
  | nil => exact h
  | cons c cs => simp [containsChars, h]

/-- A pattern occurring contiguously inside a list is found. -/
theorem containsChars_of_parts (pat pre post : List Char) :
    containsChars pat (pre ++ (pat ++ post)) = true := by
  induction pre with
  | nil =>
    simp only [List.nil_append]
    exact containsChars_of_startsWith (startsWithChars_append pat post)
  | cons c cs ih =>
    simp [containsChars, ih]

/-- Finding a pattern is preserved by prepending more text. -/
theorem containsChars_append_left (pat l₁ l₂ : List Char)
    (h : containsChars pat l₂ = true) : containsChars pat (l₁ ++ l₂) = true := by
  induction l₁ with
  | nil => exact h
  | cons c cs ih => simp [containsChars, ih]

/-- Every line of a joined line list occurs in the joined text. -/
theorem containsText_pyJoin_of_mem {sep : String} :
    ∀ {lines : List String} {l : String}, l ∈ lines →
      containsText (pyJoin sep lines) l = true := by
  intro lines
  induction lines with
  | nil => intro l h; cases h
  | cons x xs ih =>
    intro l h
    rcases List.mem_cons.mp h with h | h
    · subst h
      cases xs with
      | nil =>
        show containsChars l.data l.data = true
        simpa using containsChars_of_parts l.data [] []
      | cons y ys =>
        show containsChars l.data (l ++ sep ++ pyJoin sep (y :: ys)).data = true
        rw [String.data_append, String.data_append]
        simpa [List.append_assoc] using
          containsChars_of_parts l.data []
            (sep.data ++ (pyJoin sep (y :: ys)).data)
    · have hxs : xs ≠ [] := by
        intro he
        rw [he] at h
        cases h
      obtain ⟨y, ys, rfl⟩ := List.exists_cons_of_ne_nil hxs
      show containsChars l.data (x ++ sep ++ pyJoin sep (y :: ys)).data = true
      rw [String.data_append]
      exact containsChars_append_left _ _ _ (ih h)

/-! The claim theorems. -/

/-- C1: for every location and every upstream behaviour, a successful
`get_weather` returns a record whose `request` field equals the input
location exactly; the record type makes partial population impossible, and
every non-success path is an `Except.error` (a raised exception). -/
theorem C1_request_equals_input (ws : WeatherService) (loc : Location)
    (r : WeatherForecast) (h : get_weather ws loc = Except.ok r) :
    r.request = loc := by
  rw [get_weather_eq_pipeline] at h
  simp only [get_weather_pipeline] at h
  iterate 21 obtain ⟨_, -, h⟩ := ex_bind_eq_ok.mp h
  rw [← ex_pure_eq_ok.mp h]

/-- Witness for C1 at the sample service and location. -/
theorem C1_request_equals_input_witness : sampleForecast.request = sampleLoc :=
  C1_request_equals_input sampleWS sampleLoc sampleForecast rfl

/-- C2: `get_weather` is exactly the spec's pipeline — call the points lookup
with the location's latitude/longitude, extract `(office_id, grid_x, grid_y)`
from the nested `properties` object, call the gridpoints forecast lookup with
exactly that triple, and select element 0 of `properties.periods` of the
second response as the result period. -/
theorem C2_two_step_pipeline (ws : WeatherService) (loc : Location) :
    get_weather ws loc = get_weather_pipeline ws loc :=
  get_weather_eq_pipeline ws loc

/-- C3: when the selected period has all required fields, the returned
record maps them 1:1 — each result field is the value stored at the
corresponding camelCase key — and `request` is the original location. -/
theorem C3_field_mapping_one_to_one (ws : WeatherService) (loc : Location)
    (office grid_x grid_y period num nm st et idt tmp tu wsp wdir ic shf df : Json)
    (hg : _get_grid_info ws loc.latitude loc.longitude =
      Except.ok (office, grid_x, grid_y))
    (hf : _get_forecast ws office grid_x grid_y = Except.ok period)
    (hnum : period.pyItem "number" = Except.ok num)
    (hnm : period.pyItem "name" = Except.ok nm)
    (hst : period.pyItem "startTime" = Except.ok st)
    (het : period.pyItem "endTime" = Except.ok et)
    (hidt : period.pyItem "isDaytime" = Except.ok idt)
    (htmp : period.pyItem "temperature" = Except.ok tmp)
    (htu : period.pyItem "temperatureUnit" = Except.ok tu)
    (hwsp : period.pyItem "windSpeed" = Except.ok wsp)
    (hwdir : period.pyItem "windDirection" = Except.ok wdir)
    (hic : period.pyItem "icon" = Except.ok ic)
    (hshf : period.pyItem "shortForecast" = Except.ok shf)
    (hdf : period.pyItem "detailedForecast" = Except.ok df) :
    get_weather ws loc = Except.ok
      { request := loc, number := num, name := nm, start_time := st,
        end_time := et, is_daytime := idt, temperature := tmp,
        temperature_unit := tu,
        temperature_trend := period.pyGet "temperatureTrend",
        wind_speed := wsp, wind_direction := wdir, icon := ic,
        short_forecast := shf, detailed_forecast := df } := by
  simp only [get_weather, hg, ex_ok_bind, hf, hnum, hnm, hst, het, hidt,
    htmp, htu, hwsp, hwdir, hic, hshf, hdf]
  rfl

/-- Witness for C3 at the sample service: every hypothesis holds by
computation and the mapped record is the expected one. -/
theorem C3_field_mapping_one_to_one_witness :
    get_weather sampleWS sampleLoc = Except.ok
      { request := sampleLoc, number := Json.num 1, name := Json.str "Tonight",
        start_time := Json.str "2026-10-11T18:00:00-07:00",
        end_time := Json.str "2026-10-12T06:00:00-07:00",
        is_daytime := Json.bool false, temperature := Json.num 42,
        temperature_unit := Json.str "F",
        temperature_trend := samplePeriod.pyGet "temperatureTrend",
        wind_speed := Json.str "5 to 10 mph", wind_direction := Json.str "S",
        icon := Json.str "https://api.weather.gov/icons/land/night/rain",
        short_forecast := Json.str "Rain",
        detailed_forecast := Json.str "Rain likely after midnight." } :=
  C3_field_mapping_one_to_one sampleWS sampleLoc (Json.str "SEW")
    (Json.num 124) (Json.num 67) samplePeriod (Json.num 1)
    (Json.str "Tonight") (Json.str "2026-10-11T18:00:00-07:00")
    (Json.str "2026-10-12T06:00:00-07:00") (Json.bool false) (Json.num 42)
    (Json.str "F") (Json.str "5 to 10 mph") (Json.str "S")
    (Json.str "https://api.weather.gov/icons/land/night/rain")
    (Json.str "Rain") (Json.str "Rain likely after midnight.")
    rfl rfl rfl rfl rfl rfl rfl rfl rfl rfl rfl rfl rfl rfl

/-- C4: when the selected period lacks the `temperatureTrend` key but has all
other required fields, `get_weather` succeeds and the returned
`temperature_trend` is the no-value marker `Json.null` — not an error and not
the empty string. -/
theorem C4_absent_trend_maps_to_none (ws : WeatherService) (loc : Location)
    (office grid_x grid_y : Json) (kvs : List (String × Json))
    (num nm st et idt tmp tu wsp wdir ic shf df : Json)
    (hg : _get_grid_info ws loc.latitude loc.longitude =
      Except.ok (office, grid_x, grid_y))
    (hf : _get_forecast ws office grid_x grid_y = Except.ok (Json.obj kvs))
    (htr : kvs.lookup "temperatureTrend" = none)
    (hnum : (Json.obj kvs).pyItem "number" = Except.ok num)
    (hnm : (Json.obj kvs).pyItem "name" = Except.ok nm)
    (hst : (Json.obj kvs).pyItem "startTime" = Except.ok st)
    (het : (Json.obj kvs).pyItem "endTime" = Except.ok et)
    (hidt : (Json.obj kvs).pyItem "isDaytime" = Except.ok idt)
    (htmp : (Json.obj kvs).pyItem "temperature" = Except.ok tmp)
    (htu : (Json.obj kvs).pyItem "temperatureUnit" = Except.ok tu)
    (hwsp : (Json.obj kvs).pyItem "windSpeed" = Except.ok wsp)
    (hwdir : (Json.obj kvs).pyItem "windDirection" = Except.ok wdir)
    (hic : (Json.obj kvs).pyItem "icon" = Except.ok ic)
    (hshf : (Json.obj kvs).pyItem "shortForecast" = Except.ok shf)
    (hdf : (Json.obj kvs).pyItem "detailedForecast" = Except.ok df) :
    get_weather ws loc = Except.ok
      { request := loc, number := num, name := nm, start_time := st,
        end_time := et, is_daytime := idt, temperature := tmp,
        temperature_unit := tu, temperature_trend := Json.null,
        wind_speed := wsp, wind_direction := wdir, icon := ic,
        short_forecast := shf, detailed_forecast := df } ∧
    Json.null ≠ Json.str "" := by
  refine ⟨?_, fun hcontra => Json.noConfusion hcontra⟩
  simp only [get_weather, hg, ex_ok_bind, hf, hnum, hnm, hst, het, hidt,
    htmp, htu, hwsp, hwdir, hic, hshf, hdf, pyGet_missing htr]
  rfl

/-- Witness for C4 at the trendless sample service. -/
theorem C4_absent_trend_maps_to_none_witness :
    get_weather trendlessWS sampleLoc = Except.ok
      { request := sampleLoc, number := Json.num 1, name := Json.str "Tonight",
        start_time := Json.str "2026-10-11T18:00:00-07:00",
        end_time := Json.str "2026-10-12T06:00:00-07:00",
        is_daytime := Json.bool false, temperature := Json.num 42,
        temperature_unit := Json.str "F", temperature_trend := Json.null,
        wind_speed := Json.str "5 to 10 mph", wind_direction := Json.str "S",
        icon := Json.str "https://api.weather.gov/icons/land/night/rain",
        short_forecast := Json.str "Rain",
        detailed_forecast := Json.str "Rain likely after midnight." } ∧
    Json.null ≠ Json.str "" :=
  C4_absent_trend_maps_to_none trendlessWS sampleLoc (Json.str "SEW")
    (Json.num 124) (Json.num 67) trendlessPairs (Json.num 1)
    (Json.str "Tonight") (Json.str "2026-10-11T18:00:00-07:00")
    (Json.str "2026-10-12T06:00:00-07:00") (Json.bool false) (Json.num 42)
    (Json.str "F") (Json.str "5 to 10 mph") (Json.str "S")
    (Json.str "https://api.weather.gov/icons/land/night/rain")
    (Json.str "Rain") (Json.str "Rain likely after midnight.")
    rfl rfl rfl rfl rfl rfl rfl rfl rfl rfl rfl rfl rfl rfl rfl

/-- C5: whenever an expected field is absent from an (otherwise well-shaped)
upstream response — `properties`, `gridId`, `gridX`, `gridY` in the points
response; `properties`, `periods` in the forecast response; or a required
period field such as `number`, `name`, `startTime` — `get_weather` fails with
the missing-field error (`KeyError` on that key, the code-level realization
of the spec's `DataShapeError`).  Each conjunct assumes the extractions
before the absent key succeed, since the code checks keys in source order. -/
theorem C5_missing_fields_yield_keyerror :
    (∀ (ws : WeatherService) (loc : Location) (kvs : List (String × Json)),
      raise_for_status (ws.session (points_url loc.latitude loc.longitude)) =
        Except.ok () →
      (ws.session (points_url loc.latitude loc.longitude)).body = Json.obj kvs →
      kvs.lookup "properties" = none →
      get_weather ws loc = Except.error (PyError.keyError "properties")) ∧
    (∀ (ws : WeatherService) (loc : Location) (pkvs : List (String × Json)),
      raise_for_status (ws.session (points_url loc.latitude loc.longitude)) =
        Except.ok () →
      (ws.session (points_url loc.latitude loc.longitude)).body.pyItem
        "properties" = Except.ok (Json.obj pkvs) →
      pkvs.lookup "gridId" = none →
      get_weather ws loc = Except.error (PyError.keyError "gridId")) ∧
    (∀ (ws : WeatherService) (loc : Location) (pkvs : List (String × Json))
      (office : Json),
      raise_for_status (ws.session (points_url loc.latitude loc.longitude)) =
        Except.ok () →
      (ws.session (points_url loc.latitude loc.longitude)).body.pyItem
        "properties" = Except.ok (Json.obj pkvs) →
      pkvs.lookup "gridId" = some office →
      pkvs.lookup "gridX" = none →
      get_weather ws loc = Except.error (PyError.keyError "gridX")) ∧
    (∀ (ws : WeatherService) (loc : Location) (pkvs : List (String × Json))
      (office gx : Json),
      raise_for_status (ws.session (points_url loc.latitude loc.longitude)) =
        Except.ok () →
      (ws.session (points_url loc.latitude loc.longitude)).body.pyItem
        "properties" = Except.ok (Json.obj pkvs) →
      pkvs.lookup "gridId" = some office →
      pkvs.lookup "gridX" = some gx →
      pkvs.lookup "gridY" = none →
      get_weather ws loc = Except.error (PyError.keyError "gridY")) ∧
    (∀ (ws : WeatherService) (loc : Location) (office grid_x grid_y : Json)
      (fkvs : List (String × Json)),
      _get_grid_info ws loc.latitude loc.longitude =
        Except.ok (office, grid_x, grid_y) →
      raise_for_status (ws.session (gridpoints_url office grid_x grid_y)) =
        Except.ok () →
      (ws.session (gridpoints_url office grid_x grid_y)).body = Json.obj fkvs →
      fkvs.lookup "properties" = none →
      get_weather ws loc = Except.error (PyError.keyError "properties")) ∧
    (∀ (ws : WeatherService) (loc : Location) (office grid_x grid_y : Json)
      (fkvs : List (String × Json)),
      _get_grid_info ws loc.latitude loc.longitude =
        Except.ok (office, grid_x, grid_y) →
      raise_for_status (ws.session (gridpoints_url office grid_x grid_y)) =
        Except.ok () →
      (ws.session (gridpoints_url office grid_x grid_y)).body.pyItem
        "properties" = Except.ok (Json.obj fkvs) →
      fkvs.lookup "periods" = none →
      get_weather ws loc = Except.error (PyError.keyError "periods")) ∧
    (∀ (ws : WeatherService) (loc : Location) (office grid_x grid_y : Json)
      (pkvs : List (String × Json)),
      _get_grid_info ws loc.latitude loc.longitude =
        Except.ok (office, grid_x, grid_y) →
      _get_forecast ws office grid_x grid_y = Except.ok (Json.obj pkvs) →
      pkvs.lookup "number" = none →
      get_weather ws loc = Except.error (PyError.keyError "number")) ∧
    (∀ (ws : WeatherService) (loc : Location) (office grid_x grid_y : Json)
      (pkvs : List (String × Json)) (num : Json),
      _get_grid_info ws loc.latitude loc.longitude =
        Except.ok (office, grid_x, grid_y) →
      _get_forecast ws office grid_x grid_y = Except.ok (Json.obj pkvs) →
      pkvs.lookup "number" = some num →
      pkvs.lookup "name" = none →
      get_weather ws loc = Except.error (PyError.keyError "name")) ∧
    (∀ (ws : WeatherService) (loc : Location) (office grid_x grid_y : Json)
      (pkvs : List (String × Json)) (num nm : Json),
      _get_grid_info ws loc.latitude loc.longitude =
        Except.ok (office, grid_x, grid_y) →
      _get_forecast ws office grid_x grid_y = Except.ok (Json.obj pkvs) →
      pkvs.lookup "number" = some num →
      pkvs.lookup "name" = some nm →
      pkvs.lookup "startTime" = none →
      get_weather ws loc = Except.error (PyError.keyError "startTime")) := by
  refine ⟨?_, ?_, ?_, ?_, ?_, ?_, ?_, ?_, ?_⟩
  · intro ws loc kvs h1 h2 h3
    simp only [get_weather, _get_grid_info, h1, ex_ok_bind, h2,
      pyItem_missing h3, ex_error_bind]
  · intro ws loc pkvs h1 h2 h3
    simp only [get_weather, _get_grid_info, h1, ex_ok_bind, h2,
      pyItem_missing h3, ex_error_bind]
  · intro ws loc pkvs office h1 h2 h3 h4
    simp only [get_weather, _get_grid_info, h1, ex_ok_bind, h2,
      pyItem_found h3, pyItem_missing h4, ex_error_bind]
  · intro ws loc pkvs office gx h1 h2 h3 h4 h5
    simp only [get_weather, _get_grid_info, h1, ex_ok_bind, h2,
      pyItem_found h3, pyItem_found h4, pyItem_missing h5, ex_error_bind]
  · intro ws loc office grid_x grid_y fkvs hg h1 h2 h3
    simp only [get_weather, hg, ex_ok_bind, _get_forecast, h1, h2,
      pyItem_missing h3, ex_error_bind]
  · intro ws loc office grid_x grid_y fkvs hg h1 h2 h3
    simp only [get_weather, hg, ex_ok_bind, _get_forecast, h1, h2,
      pyItem_missing h3, ex_error_bind]
  · intro ws loc office grid_x grid_y pkvs hg hf h1
    simp only [get_weather, hg, ex_ok_bind, hf, pyItem_missing h1,
      ex_error_bind]
  · intro ws loc office grid_x grid_y pkvs num hg hf h1 h2
    simp only [get_weather, hg, ex_ok_bind, hf, pyItem_found h1,
      pyItem_missing h2, ex_error_bind]
  · intro ws loc office grid_x grid_y pkvs num nm hg hf h1 h2 h3
    simp only [get_weather, hg, ex_ok_bind, hf, pyItem_found h1,
      pyItem_found h2, pyItem_missing h3, ex_error_bind]

/-- Witness for C5: a points payload without `properties` yields
`KeyError("properties")`, and a period without `number` yields
`KeyError("number")`. -/
theorem C5_missing_fields_yield_keyerror_witness :
    get_weather noPropsWS sampleLoc =
      Except.error (PyError.keyError "properties") ∧
    get_weather noNumberWS sampleLoc =
      Except.error (PyError.keyError "number") :=
  ⟨C5_missing_fields_yield_keyerror.1 noPropsWS sampleLoc [] rfl rfl rfl,
   C5_missing_fields_yield_keyerror.2.2.2.2.2.2.1 noNumberWS sampleLoc
     (Json.str "SEW") (Json.num 124) (Json.num 67) numberlessPairs
     rfl rfl rfl⟩

/-- C10: when the forecast response carries a `properties.periods` key whose
value is the empty list, selecting period 0 raises `IndexError`, so
`get_weather` fails for that request even though every expected key is
present — no period is fabricated. -/
theorem C10_empty_periods_raises (ws : WeatherService) (loc : Location)
    (office grid_x grid_y fprops : Json)
    (hg : _get_grid_info ws loc.latitude loc.longitude =
      Except.ok (office, grid_x, grid_y))
    (h1 : raise_for_status (ws.session (gridpoints_url office grid_x grid_y)) =
      Except.ok ())
    (h2 : (ws.session (gridpoints_url office grid_x grid_y)).body.pyItem
      "properties" = Except.ok fprops)
    (h3 : fprops.pyItem "periods" = Except.ok (Json.arr [])) :
    get_weather ws loc = Except.error PyError.indexError := by
  simp only [get_weather, hg, ex_ok_bind, _get_forecast, h1, h2, h3,
    Json.pyIndexNat, List.get?, ex_error_bind]

/-- Witness for C10 at a service answering with an empty period list. -/
theorem C10_empty_periods_raises_witness :
    get_weather emptyPeriodsWS sampleLoc = Except.error PyError.indexError :=
  C10_empty_periods_raises emptyPeriodsWS sampleLoc (Json.str "SEW")
    (Json.num 124) (Json.num 67) (Json.obj [("periods", Json.arr [])])
    rfl rfl rfl rfl

/-- C6: writing the connection record and reading it back restores the
socket path and the exact authkey bytes — the authkey survives the
base64 encode/decode round trip. -/
theorem C6_connection_info_roundtrip (socket_path : String)
    (authkey : List Nat) (h : ∀ b ∈ authkey, b < 256) :
    load_connection_info (write_connection_info socket_path authkey) =
      Except.ok (Json.str socket_path, authkey) := by
  show Except.ok (Json.str socket_path,
      b64decodeChunks (String.mk (b64encodeChunks authkey)).data) =
    Except.ok (Json.str socket_path, authkey)
  rw [show (String.mk (b64encodeChunks authkey)).data = b64encodeChunks authkey
      from rfl,
    b64_roundtrip authkey h]

/-- Witness for C6 with the server's actual socket path and authkey bytes
(the ASCII bytes of `weather_secret`). -/
theorem C6_connection_info_roundtrip_witness :
    load_connection_info (write_connection_info ".weather_manager.sock"
      [119, 101, 97, 116, 104, 101, 114, 95, 115, 101, 99, 114, 101, 116]) =
      Except.ok (Json.str ".weather_manager.sock",
        [119, 101, 97, 116, 104, 101, 114, 95, 115, 101, 99, 114, 101, 116]) :=
  C6_connection_info_roundtrip ".weather_manager.sock"
    [119, 101, 97, 116, 104, 101, 114, 95, 115, 101, 99, 114, 101, 116]
    (by decide)

/-- C9: the factory registered under `get_weather_service` is a closure over
the single `WeatherService` created before registration: it hands back that
same instance on every invocation, so every resolution shares the one
long-lived instance (one per server process, never one per connection). -/
theorem C9_singleton_service_factory (weather_service : WeatherService) :
    (main_registration weather_service).1 = "get_weather_service" ∧
    ∀ u : Unit, (main_registration weather_service).2 u = weather_service :=
  ⟨rfl, fun _ => rfl⟩

/-- C8: per-call determinism and freshness.  The outcome of `get_weather`
depends only on the responses to the URLs it fetches during that very
invocation — any service whose session agrees on those URLs produces an
equal result (so fixed upstream responses give equal results across
invocations and no cached earlier result can influence the output) — and a
successful invocation performs both upstream lookups: its trace is exactly
the points URL followed by the gridpoints URL for the extracted triple. -/
theorem C8_deterministic_fresh_lookups (ws ws' : WeatherService)
    (loc : Location)
    (h : ∀ u ∈ get_weather_trace ws loc, ws'.session u = ws.session u) :
    get_weather ws' loc = get_weather ws loc ∧
    (∀ r, get_weather ws loc = Except.ok r → ∃ office grid_x grid_y,
      _get_grid_info ws loc.latitude loc.longitude =
        Except.ok (office, grid_x, grid_y) ∧
      get_weather_trace ws loc =
        [points_url loc.latitude loc.longitude,
         gridpoints_url office grid_x grid_y]) := by
  have h1 : ws'.session (points_url loc.latitude loc.longitude) =
      ws.session (points_url loc.latitude loc.longitude) := by
    refine h _ ?_
    unfold get_weather_trace
    cases _get_grid_info ws loc.latitude loc.longitude with
    | error e => simp
    | ok t =>
      obtain ⟨o, gx, gy⟩ := t
      simp
  have hg : _get_grid_info ws' loc.latitude loc.longitude =
      _get_grid_info ws loc.latitude loc.longitude := by
    unfold _get_grid_info
    rw [h1]
  cases hgi : _get_grid_info ws loc.latitude loc.longitude with
  | error e =>
    constructor
    · simp only [get_weather, hg, hgi, ex_error_bind]
    · intro r hr
      rw [get_weather, hgi, ex_error_bind] at hr
      cases hr
  | ok t =>
    obtain ⟨office, grid_x, grid_y⟩ := t
    have htr : get_weather_trace ws loc =
        [points_url loc.latitude loc.longitude,
         gridpoints_url office grid_x grid_y] := by
      unfold get_weather_trace
      rw [hgi]
    have h2 : ws'.session (gridpoints_url office grid_x grid_y) =
        ws.session (gridpoints_url office grid_x grid_y) := by
      refine h _ ?_
      rw [htr]
      simp
    have hf : _get_forecast ws' office grid_x grid_y =
        _get_forecast ws office grid_x grid_y := by
      unfold _get_forecast
      rw [h2]
    constructor
    · simp only [get_weather, hg, hgi, ex_ok_bind, hf]
    · intro r hr
      exact ⟨office, grid_x, grid_y, rfl, htr⟩

/-- Witness for C8 at the sample service (agreement hypothesis discharged
reflexively). -/
theorem C8_deterministic_fresh_lookups_witness :
    get_weather sampleWS sampleLoc = get_weather sampleWS sampleLoc ∧
    (∀ r, get_weather sampleWS sampleLoc = Except.ok r →
      ∃ office grid_x grid_y,
        _get_grid_info sampleWS sampleLoc.latitude sampleLoc.longitude =
          Except.ok (office, grid_x, grid_y) ∧
        get_weather_trace sampleWS sampleLoc =
          [points_url sampleLoc.latitude sampleLoc.longitude,
           gridpoints_url office grid_x grid_y]) :=
  C8_deterministic_fresh_lookups sampleWS sampleWS sampleLoc
    (fun _ _ => rfl)

set_option maxRecDepth 4000 in
/-- C7 counterexample: the claim's "trend line iff a trend value is present"
fails when the upstream trend is the empty string.  `cexForecast` carries
`temperature_trend = Json.str ""` — a present value, distinct from the
absent-key marker `Json.null` — yet the rendered text contains no
`Temperature Trend` line at all, because the code tests Python truthiness,
which the empty string fails. -/
theorem C7_trend_iff_present_counterexample :
    cexForecast.temperature_trend ≠ Json.null ∧
    (to_human_readable cexForecast).map
      (fun t => containsText t "Temperature Trend") = Except.ok false := by
  exact ⟨fun h => Json.noConfusion h, rfl⟩

/-- C7 (amended): the rendered text contains the period name, the temperature
with its unit, the short forecast, and the wind direction with the wind
speed; it contains the Temperature Trend line if `temperature_trend` is
truthy, and when the trend is not truthy (absent, or a falsy present value
such as the empty string) the text is exactly the join of the eight
trend-free lines. -/
theorem C7_rendering_amended (wf : WeatherForecast) (t : String)
    (h : to_human_readable wf = Except.ok t) :
    containsText t ("Period: " ++ wf.name.pyStr) = true ∧
    containsText t ("Temperature: " ++ wf.temperature.pyStr ++ "°"
      ++ wf.temperature_unit.pyStr) = true ∧
    containsText t ("Conditions: " ++ wf.short_forecast.pyStr) = true ∧
    containsText t ("Wind: " ++ wf.wind_direction.pyStr ++ " at "
      ++ wf.wind_speed.pyStr) = true ∧
    (wf.temperature_trend.truthy = true →
      containsText t ("Temperature Trend: "
        ++ wf.temperature_trend.pyStr) = true) ∧
    (wf.temperature_trend.truthy = false →
      ∃ d, wf.detailed_forecast = Json.str d ∧
        t = pyJoin "\n"
          ["Weather Forecast for Location (" ++ ratStr wf.request.latitude
             ++ ", " ++ ratStr wf.request.longitude ++ ")",
           String.mk (List.replicate 70 '='),
           "Period: " ++ wf.name.pyStr,
           "Temperature: " ++ wf.temperature.pyStr ++ "°"
             ++ wf.temperature_unit.pyStr,
           "Conditions: " ++ wf.short_forecast.pyStr,
           "Wind: " ++ wf.wind_direction.pyStr ++ " at "
             ++ wf.wind_speed.pyStr,
           "",
           d]) := by
  cases hdf : wf.detailed_forecast with
  | str d =>
    simp only [to_human_readable, hdf] at h
    have ht : t = pyJoin "\n" (human_lines wf d) := (Except.ok.inj h).symm
    subst ht
    refine ⟨?_, ?_, ?_, ?_, ?_, ?_⟩
    · exact containsText_pyJoin_of_mem (by simp [human_lines])
    · exact containsText_pyJoin_of_mem (by simp [human_lines])
    · exact containsText_pyJoin_of_mem (by simp [human_lines])
    · exact containsText_pyJoin_of_mem (by simp [human_lines])
    · intro htr
      exact containsText_pyJoin_of_mem (by simp [human_lines, htr])
    · intro htr
      exact ⟨d, rfl, by simp [human_lines, htr]⟩
  | null =>
    simp only [to_human_readable, hdf] at h
    exact Except.noConfusion h
  | bool b =>
    simp only [to_human_readable, hdf] at h
    exact Except.noConfusion h
  | num n =>
    simp only [to_human_readable, hdf] at h
    exact Except.noConfusion h
  | arr xs =>
    simp only [to_human_readable, hdf] at h
    exact Except.noConfusion h
  | obj kvs =>
    simp only [to_human_readable, hdf] at h
    exact Except.noConfusion h

/-- Witness for C7 (amended) at a forecast whose trend is `rising`. -/
theorem C7_rendering_amended_witness :
    containsText trendyText ("Period: " ++ trendyForecast.name.pyStr) = true ∧
    containsText trendyText ("Temperature: " ++ trendyForecast.temperature.pyStr
      ++ "°" ++ trendyForecast.temperature_unit.pyStr) = true ∧
    containsText trendyText ("Conditions: "
      ++ trendyForecast.short_forecast.pyStr) = true ∧
    containsText trendyText ("Wind: " ++ trendyForecast.wind_direction.pyStr
      ++ " at " ++ trendyForecast.wind_speed.pyStr) = true ∧
    (trendyForecast.temperature_trend.truthy = true →
      containsText trendyText ("Temperature Trend: "
        ++ trendyForecast.temperature_trend.pyStr) = true) ∧
    (trendyForecast.temperature_trend.truthy = false →
      ∃ d, trendyForecast.detailed_forecast = Json.str d ∧
        trendyText = pyJoin "\n"
          ["Weather Forecast for Location ("
             ++ ratStr trendyForecast.request.latitude ++ ", "
             ++ ratStr trendyForecast.request.longitude ++ ")",
           String.mk (List.replicate 70 '='),
           "Period: " ++ trendyForecast.name.pyStr,
           "Temperature: " ++ trendyForecast.temperature.pyStr ++ "°"
             ++ trendyForecast.temperature_unit.pyStr,
           "Conditions: " ++ trendyForecast.short_forecast.pyStr,
           "Wind: " ++ trendyForecast.wind_direction.pyStr ++ " at "
             ++ trendyForecast.wind_speed.pyStr,
           "",
           d]) :=
  C7_rendering_amended trendyForecast trendyText rfl
